import Mathlib

/-!
Verification of the landscore Parcel Query Engine
(`src/server/src/services/parcelService.ts`, validation schemas in
`src/server/src/validation/schemas.ts`, parcel routes in
`src/server/src/routes/parcels.ts`).

The service is a read-only query layer over a SQL store.  We embed it
shallowly: the store is a list of pre-joined rows (one per parcel; the
`land_data` join is 1:1 by the unique index on `land_data.parcel_id`, and
the lateral latest-valuation join yields at most one price per parcel),
SQL `WHERE` fragments become Boolean predicates with SQL three-valued
semantics collapsed to "NULL comparisons do not match", and the dynamic
WHERE-clause builder of `searchParcels` is embedded instruction by
instruction (one `conditions.push`/`values.push` pair per present filter
field, with a running placeholder counter starting at 1).
-/

namespace LandScore

/-- A value pushed onto the bound-values array of the dynamic query
(`values.push(...)` in `searchParcels`). -/
inductive FilterVal where
  | num (q : ℚ)
  | strList (ss : List String)
  | flag (b : Bool)
  | str (s : String)
deriving DecidableEq

/-- The filter object accepted by `searchParcels` (optional fields of
`ParcelSearchParams`; `limit` defaults to 100 and `offset` to 0 in the
destructuring). -/
structure ParcelSearchParams where
  minAreaAcres : Option ℚ := none
  maxAreaAcres : Option ℚ := none
  minPrice : Option ℚ := none
  maxPrice : Option ℚ := none
  zoningCodes : Option (List String) := none
  soilTypes : Option (List String) := none
  croplandClasses : Option (List String) := none
  hasWaterAccess : Option Bool := none
  hasRoadAccess : Option Bool := none
  city : Option String := none
  limit : Option Nat := none
  offset : Option Nat := none
deriving DecidableEq

/-- One entry of the `conditions` array: the SQL text of the condition
(up to its placeholder) and the placeholder index it binds
(`none` for the seed condition `1=1`, which binds no placeholder). -/
structure Fragment where
  sql : String
  placeholder : Option Nat
deriving DecidableEq

/-- The builder state of `searchParcels`: the `conditions` array, the
`values` array and the running `paramIndex` counter. -/
structure CompState where
  conditions : List Fragment
  values : List FilterVal
  paramIndex : Nat
deriving DecidableEq

/-- The initial builder state: `conditions = ['1=1']`, `values = []`,
`paramIndex = 1`. -/
def initState : CompState :=
  { conditions := [⟨"1=1", none⟩], values := [], paramIndex := 1 }

/-- One `conditions.push` + `values.push` pair using `$paramIndex++`. -/
def pushCond (st : CompState) (sql : String) (v : FilterVal) : CompState :=
  { conditions := st.conditions ++ [⟨sql, some st.paramIndex⟩]
    values := st.values ++ [v]
    paramIndex := st.paramIndex + 1 }

/-- Execute one (possibly skipped) `if (...) { push; push }` block. -/
def emitStep (st : CompState) (e : Option (String × FilterVal)) : CompState :=
  match e with
  | none => st
  | some sv => pushCond st sv.1 sv.2

/-- The ten guarded emission sites of `searchParcels`, in source order.
`none` means the guard failed and nothing is pushed.  Array fields are
guarded by `arr && arr.length > 0`; `city` by JavaScript truthiness
(the empty string is falsy). -/
def emissions (p : ParcelSearchParams) : List (Option (String × FilterVal)) :=
  [ p.minAreaAcres.map (fun q => ("p.area_acres >= $", FilterVal.num q)),
    p.maxAreaAcres.map (fun q => ("p.area_acres <= $", FilterVal.num q)),
    p.minPrice.map (fun q => ("v.estimated_price >= $", FilterVal.num q)),
    p.maxPrice.map (fun q => ("v.estimated_price <= $", FilterVal.num q)),
    (match p.zoningCodes with
     | some l => if 0 < l.length then some ("ld.zoning_code = ANY($", FilterVal.strList l) else none
     | none => none),
    (match p.soilTypes with
     | some l => if 0 < l.length then some ("ld.soil_type = ANY($", FilterVal.strList l) else none
     | none => none),
    (match p.croplandClasses with
     | some l => if 0 < l.length then some ("ld.cropland_class = ANY($", FilterVal.strList l) else none
     | none => none),
    p.hasWaterAccess.map (fun b => ("ld.has_water_access = $", FilterVal.flag b)),
    p.hasRoadAccess.map (fun b => ("ld.has_road_access = $", FilterVal.flag b)),
    (match p.city with
     | some c => if c = "" then none else
         some ("LOWER(p.city) LIKE LOWER($", FilterVal.str ("%" ++ c ++ "%"))
     | none => none) ]

/-- The WHERE-clause builder of `searchParcels` (lines 239-283). -/
def buildConditions (p : ParcelSearchParams) : CompState :=
  (emissions p).foldl emitStep initState

/-- The placeholder appended for `LIMIT` (`$paramIndex++` at line 339):
the next-available index after filter compilation. -/
def limitPlaceholder (p : ParcelSearchParams) : Nat :=
  (buildConditions p).paramIndex

/-- The placeholder appended for `OFFSET` (line 340). -/
def offsetPlaceholder (p : ParcelSearchParams) : Nat :=
  (buildConditions p).paramIndex + 1

/-- Builder invariant: the conditions are the seed `1=1` followed by one
fragment per bound value, the fragments bind placeholders `1..N` in
order, and `paramIndex` is the next free index `N+1`. -/
def CompInv (st : CompState) : Prop :=
  st.conditions.map Fragment.placeholder
      = none :: (List.range' 1 st.values.length).map some
    ∧ st.paramIndex = st.values.length + 1

lemma compInv_init : CompInv initState := by
  constructor <;> simp [initState]

lemma compInv_push (st : CompState) (h : CompInv st) (sql : String) (v : FilterVal) :
    CompInv (pushCond st sql v) := by
  obtain ⟨h1, h2⟩ := h
  constructor
  · simp only [pushCond, List.map_append, h1, h2, List.length_append,
      List.length_singleton, List.map_cons, List.map_nil]
    rw [List.range'_1_concat]
    simp [Nat.add_comm]
  · simp [pushCond, h2]

lemma compInv_foldl (es : List (Option (String × FilterVal))) :
    ∀ st : CompState, CompInv st → CompInv (es.foldl emitStep st) := by
  induction es with
  | nil => intro st h; simpa using h
  | cons e es ih =>
    intro st h
    cases e with
    | none => exact ih st h
    | some sv => exact ih _ (compInv_push st h sv.1 sv.2)

lemma buildConditions_inv (p : ParcelSearchParams) : CompInv (buildConditions p) :=
  compInv_foldl (emissions p) initState compInv_init

/-- C1: the WHERE-clause builder of `searchParcels` pushes each condition
fragment and its bound value as an atomic pair: beyond the seed `1=1`
(which binds no placeholder), the fragments bind placeholder indices
exactly `1..N` in order for the `N` bound values, fragment and value
counts agree, the final `paramIndex` is the next-available index `N+1`,
and the subsequently appended `LIMIT` and `OFFSET` placeholders
(`N+1` and `N+2`) collide with no filter placeholder. -/
theorem C1_filter_compiler_placeholder_contract (p : ParcelSearchParams) :
    (buildConditions p).conditions.map Fragment.placeholder
        = none :: (List.range' 1 (buildConditions p).values.length).map some
    ∧ (buildConditions p).conditions.length = (buildConditions p).values.length + 1
    ∧ (buildConditions p).paramIndex = (buildConditions p).values.length + 1
    ∧ some (limitPlaceholder p) ∉ (buildConditions p).conditions.map Fragment.placeholder
    ∧ some (offsetPlaceholder p) ∉ (buildConditions p).conditions.map Fragment.placeholder := by
  obtain ⟨h1, h2⟩ := buildConditions_inv p
  refine ⟨h1, ?_, h2, ?_, ?_⟩
  · have := congrArg List.length h1
    simpa using this
  · rw [limitPlaceholder, h2, h1]
    simp only [List.mem_cons, List.mem_map, not_or]
    refine ⟨by simp, ?_⟩
    rintro ⟨k, hk, he⟩
    rw [List.mem_range'_1] at hk
    simp only [Option.some.injEq] at he
    omega
  · rw [offsetPlaceholder, h2, h1]
    simp only [List.mem_cons, List.mem_map, not_or]
    refine ⟨by simp, ?_⟩
    rintro ⟨k, hk, he⟩
    rw [List.mem_range'_1] at hk
    simp only [Option.some.injEq] at he
    omega

/-- The all-absent filter object. -/
def noFilters : ParcelSearchParams := {}

/-- C7: a set-membership filter field given as the empty array is omitted
entirely by the WHERE-clause builder — compilation is identical to the
field being absent (no fragment, no bound value) — and a filter object
with every optional field absent emits nothing beyond the seed `1=1`. -/
theorem C7_empty_set_fields_omitted (p : ParcelSearchParams) :
    buildConditions { p with zoningCodes := some [] }
        = buildConditions { p with zoningCodes := none }
    ∧ buildConditions { p with soilTypes := some [] }
        = buildConditions { p with soilTypes := none }
    ∧ buildConditions { p with croplandClasses := some [] }
        = buildConditions { p with croplandClasses := none }
    ∧ (buildConditions noFilters).conditions = initState.conditions
    ∧ (buildConditions noFilters).values = [] := by
  refine ⟨rfl, rfl, rfl, rfl, rfl⟩

/-! ## Store rows and the row→item mapping -/

/-- A pre-joined store row, as selected by the raw queries: the parcel
columns together with `v.estimated_price` (latest valuation, `NULL` when
the parcel has none) and the `land_data` columns (`NULL` when absent).
`area_sqft`/`area_acres` are `NOT NULL` columns. -/
structure ParcelRow where
  id : String
  parcelId : String := ""
  address : Option String := none
  city : Option String := none
  areaSqft : ℚ := 0
  areaAcres : ℚ := 0
  centroidLat : Option ℚ := none
  centroidLng : Option ℚ := none
  estimatedPrice : Option ℚ := none
  zoningCode : Option String := none
  soilType : Option String := none
  croplandClass : Option String := none
  hasWaterAccess : Option Bool := none
  hasRoadAccess : Option Bool := none
deriving DecidableEq

/-- JavaScript `x || 0` on a nullable numeric column: `null` and `0` are
falsy and yield `0`. -/
def jsNumOrZero : Option ℚ → ℚ
  | none => 0
  | some q => if q = 0 then 0 else q

/-- JavaScript `x || undefined` on a nullable numeric column: `null` and
`0` are falsy and yield `undefined`. -/
def jsNumOrUndef : Option ℚ → Option ℚ
  | none => none
  | some q => if q = 0 then none else some q

/-- JavaScript `x || undefined` on a nullable string column: `null` and
the empty string are falsy and yield `undefined`. -/
def jsStrOrUndef : Option String → Option String
  | none => none
  | some s => if s = "" then none else some s

/-- The list-item shape returned by `getParcelsInBBox`, `searchParcels`
and `getParcelsNearPoint`. -/
structure ParcelListItem where
  id : String
  parcelId : String
  address : Option String
  city : Option String
  areaSqft : ℚ
  areaAcres : ℚ
  centroidLat : ℚ
  centroidLng : ℚ
  estimatedPrice : Option ℚ
  zoningCode : Option String
deriving DecidableEq

/-- The row→item mapping written out verbatim three times in the service
(`getParcelsInBBox` lines 51-62, `searchParcels` lines 344-355,
`getParcelsNearPoint` lines 415-426): `|| undefined` on nullable
strings and on the price, `|| 0` on the centroid coordinates. -/
def rowToItem (p : ParcelRow) : ParcelListItem :=
  { id := p.id
    parcelId := p.parcelId
    address := jsStrOrUndef p.address
    city := jsStrOrUndef p.city
    areaSqft := p.areaSqft
    areaAcres := p.areaAcres
    centroidLat := jsNumOrZero p.centroidLat
    centroidLng := jsNumOrZero p.centroidLng
    estimatedPrice := jsNumOrUndef p.estimatedPrice
    zoningCode := jsStrOrUndef p.zoningCode }

/-! ## SQL condition semantics for the compiled filter

SQL comparisons against `NULL` are not true, so a row with a `NULL`
column fails any compiled condition on that column. -/

/-- `field >= q` under SQL NULL semantics. -/
def numGeCond (field : Option ℚ) (q : ℚ) : Bool :=
  match field with
  | none => false
  | some x => decide (q ≤ x)

/-- `field <= q` under SQL NULL semantics. -/
def numLeCond (field : Option ℚ) (q : ℚ) : Bool :=
  match field with
  | none => false
  | some x => decide (x ≤ q)

/-- `field = ANY(l)` under SQL NULL semantics. -/
def anyCond (field : Option String) (l : List String) : Bool :=
  match field with
  | none => false
  | some x => l.contains x

/-- `field = b` under SQL NULL semantics. -/
def flagCond (field : Option Bool) (b : Bool) : Bool :=
  match field with
  | none => false
  | some x => x == b

/-- Substring test: `needle` occurs contiguously in `hay`. -/
def sublistCheck (needle : List Char) : List Char → Bool
  | [] => needle.isEmpty
  | c :: rest => needle.isPrefixOf (c :: rest) || sublistCheck needle rest

/-- `LOWER(field) LIKE LOWER('%c%')` under SQL NULL semantics, for a
pattern without further wildcards: case-insensitive containment. -/
def likeCond (field : Option String) (c : String) : Bool :=
  match field with
  | none => false
  | some h => sublistCheck (String.toLower c).toList (String.toLower h).toList

/-- Semantic reading of the compiled WHERE clause of `searchParcels`:
the conjunction of the conditions emitted for the present filter fields
(the seed `1=1` is vacuous), evaluated on a pre-joined row. -/
def matchesFilter (p : ParcelSearchParams) (r : ParcelRow) : Bool :=
  (match p.minAreaAcres with | none => true | some q => decide (q ≤ r.areaAcres))
  && (match p.maxAreaAcres with | none => true | some q => decide (r.areaAcres ≤ q))
  && (match p.minPrice with | none => true | some q => numGeCond r.estimatedPrice q)
  && (match p.maxPrice with | none => true | some q => numLeCond r.estimatedPrice q)
  && (match p.zoningCodes with
      | none => true
      | some l => if 0 < l.length then anyCond r.zoningCode l else true)
  && (match p.soilTypes with
      | none => true
      | some l => if 0 < l.length then anyCond r.soilType l else true)
  && (match p.croplandClasses with
      | none => true
      | some l => if 0 < l.length then anyCond r.croplandClass l else true)
  && (match p.hasWaterAccess with | none => true | some b => flagCond r.hasWaterAccess b)
  && (match p.hasRoadAccess with | none => true | some b => flagCond r.hasRoadAccess b)
  && (match p.city with
      | none => true
      | some c => if c = "" then true else likeCond r.city c)

/-! ## The Search executor -/

/-- The sort key of the row query: `ORDER BY v.estimated_price DESC
NULLS LAST`.  `priceDescNullsLast a b` holds when `a` may appear no
later than `b`. -/
def priceDescNullsLast (a b : ParcelRow) : Bool :=
  match a.estimatedPrice, b.estimatedPrice with
  | some x, some y => decide (y ≤ x)
  | some _, none => true
  | none, some _ => false
  | none, none => true

/-- The rows matching the compiled WHERE clause. -/
def searchFiltered (table : List ParcelRow) (p : ParcelSearchParams) : List ParcelRow :=
  table.filter (matchesFilter p)

/-- The count query: `SELECT COUNT(DISTINCT p.id) ... WHERE
<whereClause>`, built from the same compiled fragments and bound values
as the row query (`p.id` is the primary key, so rows are distinct). -/
def searchTotal (table : List ParcelRow) (p : ParcelSearchParams) : Nat :=
  (searchFiltered table p).length

/-- The row query of `searchParcels` as a relation: `ORDER BY` with a
non-injective key determines the result only up to reordering of
equal-key rows, so `rows` is a valid result whenever it is the requested
`LIMIT`/`OFFSET` window of some ordering of the matching rows that is
sorted by `priceDescNullsLast`. -/
def IsSearchRows (table : List ParcelRow) (p : ParcelSearchParams)
    (rows : List ParcelRow) : Prop :=
  ∃ sorted : List ParcelRow,
    sorted.Perm (searchFiltered table p)
    ∧ sorted.Pairwise (fun a b => priceDescNullsLast a b = true)
    ∧ rows = (sorted.drop (p.offset.getD 0)).take (p.limit.getD 100)

/-- The `POST /api/parcels/search` response shape. -/
structure SearchResponse where
  data : List ParcelListItem
  total : Nat
  hasMore : Bool
deriving DecidableEq

/-- The route handler's response: `hasMore = (offset || 0) +
parcels.length < total`. -/
def searchResponse (table : List ParcelRow) (p : ParcelSearchParams)
    (rows : List ParcelRow) : SearchResponse :=
  { data := rows.map rowToItem
    total := searchTotal table p
    hasMore := decide (p.offset.getD 0 + rows.length < searchTotal table p) }

/-- Sample rows used to instantiate the theorems below. -/
def sampleRow : ParcelRow := { id := "p1", parcelId := "P-1" }

def rowA : ParcelRow := { id := "a", parcelId := "A", estimatedPrice := some 100 }

def rowB : ParcelRow := { id := "b", parcelId := "B", estimatedPrice := some 100 }

def zeroPriceRow : ParcelRow := { id := "z", parcelId := "Z", estimatedPrice := some 0 }

/-- C6: for every filter object, the count and the page are computed
against the same compiled WHERE clause (both `searchTotal` and
`IsSearchRows` consume `searchFiltered table p`), and the outputs agree:
the total count is at least the number of returned rows, and the
response's `hasMore` holds exactly when `offset + returned < total`. -/
theorem C6_count_rows_agree (table : List ParcelRow) (p : ParcelSearchParams)
    (rows : List ParcelRow) (h : IsSearchRows table p rows) :
    rows.length ≤ searchTotal table p
    ∧ ((searchResponse table p rows).hasMore = true
        ↔ p.offset.getD 0 + (searchResponse table p rows).data.length
            < (searchResponse table p rows).total) := by
  obtain ⟨sorted, hperm, hsort, hrows⟩ := h
  have h1 : rows.length ≤ sorted.length := by
    subst hrows
    simp only [List.length_take, List.length_drop]
    omega
  have h2 : sorted.length = searchTotal table p := hperm.length_eq
  refine ⟨by omega, ?_⟩
  simp [searchResponse]

/-- Witness for C6 at a one-row table and the all-absent filter. -/
theorem C6_count_rows_agree_witness :
    [sampleRow].length ≤ searchTotal [sampleRow] noFilters
    ∧ ((searchResponse [sampleRow] noFilters [sampleRow]).hasMore = true
        ↔ noFilters.offset.getD 0 + (searchResponse [sampleRow] noFilters [sampleRow]).data.length
            < (searchResponse [sampleRow] noFilters [sampleRow]).total) :=
  C6_count_rows_agree [sampleRow] noFilters [sampleRow]
    ⟨[sampleRow], by decide, by decide, by decide⟩

/-- C4 counterexample: two matching rows with the same estimated price
admit two distinct valid row-query results under the code's `ORDER BY
v.estimated_price DESC NULLS LAST` (which has no secondary sort key), so
Search's row ordering is not determined by the filter and pagination:
ties are not broken by any stable secondary key. -/
theorem C4_counterexample_tie_ordering :
    IsSearchRows [rowA, rowB] noFilters [rowA, rowB]
    ∧ IsSearchRows [rowA, rowB] noFilters [rowB, rowA]
    ∧ ([rowA, rowB] : List ParcelRow) ≠ [rowB, rowA] :=
  ⟨⟨[rowA, rowB], by decide, by decide, by decide⟩,
   ⟨[rowB, rowA], by decide, by decide, by decide⟩,
   by decide⟩

/-- C4 amended: every valid Search page is ordered by latest estimated
price descending with missing-price rows last (`priceDescNullsLast`
holds pairwise along the page), but the code specifies no secondary
tie-break key, so the ordering of equal-price rows — and hence
re-invocation reproducibility — is not guaranteed. -/
theorem C4_amended_page_price_ordered (table : List ParcelRow)
    (p : ParcelSearchParams) (rows : List ParcelRow)
    (h : IsSearchRows table p rows) :
    rows.Pairwise (fun a b => priceDescNullsLast a b = true) := by
  obtain ⟨sorted, hperm, hsort, hrows⟩ := h
  subst hrows
  exact hsort.sublist ((List.take_sublist _ _).trans (List.drop_sublist _ _))

/-- Witness for the amended C4 at a concrete two-row table. -/
theorem C4_amended_page_price_ordered_witness :
    ([rowA, rowB] : List ParcelRow).Pairwise (fun a b => priceDescNullsLast a b = true) :=
  C4_amended_page_price_ordered [rowA, rowB] noFilters [rowA, rowB]
    ⟨[rowA, rowB], by decide, by decide, by decide⟩

/-- C10: the row→item mapping shared by the bbox list, the search page
and the near-point rows coerces falsy values: a latest valuation with
estimated price exactly `0` is reported with `estimatedPrice` absent —
indistinguishable from a parcel with no valuation — and a `NULL`
centroid is reported as `centroidLat = 0`, `centroidLng = 0` rather than
as absent fields. -/
theorem C10_falsy_row_mapping (r : ParcelRow) :
    (r.estimatedPrice = some 0 →
      rowToItem r = rowToItem { r with estimatedPrice := none })
    ∧ (r.centroidLat = none → (rowToItem r).centroidLat = 0)
    ∧ (r.centroidLng = none → (rowToItem r).centroidLng = 0) := by
  refine ⟨?_, ?_, ?_⟩
  · intro h
    simp [rowToItem, jsNumOrUndef, h]
  · intro h
    simp [rowToItem, jsNumOrZero, h]
  · intro h
    simp [rowToItem, jsNumOrZero, h]

/-- Witness for C10 at a row with price `0` and a `NULL` centroid. -/
theorem C10_falsy_row_mapping_witness :
    rowToItem zeroPriceRow = rowToItem { zeroPriceRow with estimatedPrice := none }
    ∧ (rowToItem zeroPriceRow).centroidLat = 0
    ∧ (rowToItem zeroPriceRow).centroidLng = 0 :=
  ⟨(C10_falsy_row_mapping zeroPriceRow).1 rfl,
   (C10_falsy_row_mapping zeroPriceRow).2.1 rfl,
   (C10_falsy_row_mapping zeroPriceRow).2.2 rfl⟩

/-! ## Geometry simplification policy (`getParcelGeoJSON`, lines 69-72) -/

/-- `const tolerance = zoom < 10 ? 0.001 : zoom < 14 ? 0.0001 : 0.00001`. -/
def simplificationTolerance (zoom : ℚ) : ℚ :=
  if zoom < 10 then 1/1000 else if zoom < 14 then 1/10000 else 1/100000

/-- The destructuring default `zoom = 12` of `getParcelGeoJSON`. -/
def defaultZoom : ℚ := 12

/-- The tolerance actually used by `getParcelGeoJSON` for a possibly
absent zoom. -/
def geoJSONTolerance (zoom : Option ℚ) : ℚ :=
  simplificationTolerance (zoom.getD defaultZoom)

/-- C5: the simplification policy is a pure step function of zoom that is
monotonically non-increasing; an absent zoom defaults to the mid-range
value 12, and out-of-range zooms take the tolerance of the nearest
in-range band (below 0 the far band, above 22 the near band) — the
function is total, so no input fails. -/
theorem C5_tolerance_policy :
    (∀ z1 z2 : ℚ, z1 < z2 → simplificationTolerance z2 ≤ simplificationTolerance z1)
    ∧ geoJSONTolerance none = simplificationTolerance 12
    ∧ defaultZoom = 12
    ∧ (∀ z : ℚ, z < 0 → simplificationTolerance z = simplificationTolerance 0)
    ∧ (∀ z : ℚ, 22 < z → simplificationTolerance z = simplificationTolerance 22) := by
  refine ⟨?_, rfl, rfl, ?_, ?_⟩
  · intro z1 z2 h
    unfold simplificationTolerance
    split_ifs <;> (try norm_num) <;> linarith
  · intro z h
    unfold simplificationTolerance
    split_ifs <;> (try norm_num) <;> linarith
  · intro z h
    unfold simplificationTolerance
    split_ifs <;> (try norm_num) <;> linarith

/-- Witness for C5 at concrete zooms 3 < 5, −7 and 30. -/
theorem C5_tolerance_policy_witness :
    simplificationTolerance 5 ≤ simplificationTolerance 3
    ∧ simplificationTolerance (-7) = simplificationTolerance 0
    ∧ simplificationTolerance 30 = simplificationTolerance 22 :=
  ⟨C5_tolerance_policy.1 3 5 (by norm_num),
   C5_tolerance_policy.2.2.2.1 (-7) (by norm_num),
   C5_tolerance_policy.2.2.2.2 30 (by norm_num)⟩

/-! ## Spatial queries: bounding box (`getParcelsInBBox`,
`getParcelGeoJSON`) and the `/bbox`, `/list` routes -/

/-- `getParcelsInBBox`: rows whose geometry intersects the envelope
(`p.geometry && ST_MakeEnvelope(...)`, abstracted as the predicate
`inEnvelope`), capped by `LIMIT 500`, mapped to list items. -/
def getParcelsInBBox (inEnvelope : ParcelRow → Bool) (table : List ParcelRow) :
    List ParcelListItem :=
  ((table.filter inEnvelope).take 500).map rowToItem

/-- A GeoJSON feature of `getParcelGeoJSON`: simplified geometry text
(`null` when the store returns none) plus raw attribute properties
(no falsy coercion in this mapping). -/
structure GeoFeature where
  id : String
  parcelId : String
  geometry : Option String
  address : Option String
  city : Option String
  areaAcres : ℚ
  estimatedPrice : Option ℚ
  zoningCode : Option String
  soilType : Option String
deriving DecidableEq

/-- The feature list of `getParcelGeoJSON`: envelope-intersecting rows,
`LIMIT 500`, each carrying its simplified geometry (`geomOf`). -/
def getParcelGeoJSONFeatures (inEnvelope : ParcelRow → Bool)
    (geomOf : ParcelRow → Option String) (table : List ParcelRow) :
    List GeoFeature :=
  ((table.filter inEnvelope).take 500).map (fun r =>
    { id := r.id
      parcelId := r.parcelId
      geometry := geomOf r
      address := r.address
      city := r.city
      areaAcres := r.areaAcres
      estimatedPrice := r.estimatedPrice
      zoningCode := r.zoningCode
      soilType := r.soilType })

/-- C8: both bounding-box queries return at most 500 results, for every
envelope predicate and every table. -/
theorem C8_bbox_cap_500 (inEnvelope : ParcelRow → Bool)
    (geomOf : ParcelRow → Option String) (table : List ParcelRow) :
    (getParcelsInBBox inEnvelope table).length ≤ 500
    ∧ (getParcelGeoJSONFeatures inEnvelope geomOf table).length ≤ 500 := by
  constructor <;>
    · simp only [getParcelsInBBox, getParcelGeoJSONFeatures, List.length_map,
        List.length_take]
      omega

/-- The raw bbox query parameters (after zod numeric coercion). -/
structure BBoxQueryRaw where
  north : ℚ
  south : ℚ
  east : ℚ
  west : ℚ
  zoom : Option ℚ := none
deriving DecidableEq

/-- `bboxQuerySchema`: per-coordinate range checks only
(`z.coerce.number().min(-90).max(90)` etc.; optional zoom in `[0, 22]`).
There is no cross-field refinement. -/
def bboxQuerySchemaCheck (b : BBoxQueryRaw) : Bool :=
  decide (-90 ≤ b.north) && decide (b.north ≤ 90)
  && decide (-90 ≤ b.south) && decide (b.south ≤ 90)
  && decide (-180 ≤ b.east) && decide (b.east ≤ 180)
  && decide (-180 ≤ b.west) && decide (b.west ≤ 180)
  && (match b.zoom with
      | none => true
      | some z => decide (0 ≤ z) && decide (z ≤ 22))

/-- The error outcomes of the parcel routes: a zod validation failure
(400) or the explicit `badRequest` thrown by `/nearby`. -/
inductive ApiError where
  | validationError
  | badRequest
deriving DecidableEq

/-- `GET /api/parcels/list`: validate the query against
`bboxQuerySchema`, then (and only then) issue the store query. -/
def bboxListRoute (inEnvelope : BBoxQueryRaw → ParcelRow → Bool)
    (table : List ParcelRow) (b : BBoxQueryRaw) :
    Except ApiError (List ParcelListItem) :=
  if bboxQuerySchemaCheck b then
    Except.ok (getParcelsInBBox (inEnvelope b) table)
  else
    Except.error ApiError.validationError

/-- A box with `north < south` whose coordinates are all in range. -/
def invertedBox : BBoxQueryRaw := { north := 10, south := 20, east := 30, west := 0 }

/-- An envelope predicate that intersects everything. -/
def envAll : BBoxQueryRaw → ParcelRow → Bool := fun _ _ => true

/-- C2 counterexample: the box `north = 10 < 20 = south` passes
`bboxQuerySchema` (which checks only per-coordinate ranges) and the
route issues the store query and answers `ok` — it does not fail with
any validation error, and no `InvalidBounds` check exists. -/
theorem C2_counterexample_inverted_box_accepted :
    invertedBox.north < invertedBox.south
    ∧ bboxQuerySchemaCheck invertedBox = true
    ∧ bboxListRoute envAll [sampleRow] invertedBox
        = Except.ok [rowToItem sampleRow] := by
  refine ⟨by norm_num [invertedBox], by decide, rfl⟩

/-- C2 amended: bbox validation checks exactly the per-coordinate ranges
(latitudes in `[-90, 90]`, longitudes in `[-180, 180]`, zoom in
`[0, 22]` when present) and nothing else — the store is reached exactly
when those range checks pass, with no `north > south` or `east > west`
requirement and no `InvalidBounds` error. -/
theorem C2_amended_range_only_validation (inEnvelope : BBoxQueryRaw → ParcelRow → Bool)
    (table : List ParcelRow) (b : BBoxQueryRaw) :
    ((∃ xs, bboxListRoute inEnvelope table b = Except.ok xs)
        ↔ bboxQuerySchemaCheck b = true)
    ∧ (bboxQuerySchemaCheck b = true ↔
        (-90 ≤ b.north ∧ b.north ≤ 90 ∧ -90 ≤ b.south ∧ b.south ≤ 90
          ∧ -180 ≤ b.east ∧ b.east ≤ 180 ∧ -180 ≤ b.west ∧ b.west ≤ 180
          ∧ ∀ z ∈ b.zoom, 0 ≤ z ∧ z ≤ 22)) := by
  constructor
  · constructor
    · rintro ⟨xs, hxs⟩
      by_cases hb : bboxQuerySchemaCheck b = true
      · exact hb
      · simp [bboxListRoute, hb] at hxs
    · intro hb
      exact ⟨getParcelsInBBox (inEnvelope b) table, by simp [bboxListRoute, hb]⟩
  · cases hz : b.zoom <;>
      simp [bboxQuerySchemaCheck, hz, Bool.and_eq_true, decide_eq_true_eq, and_assoc]

/-! ## Spatial queries: near point (`getParcelsNearPoint`) and the
`/nearby` route -/

/-- A near-point result row: the shared list-item mapping plus
`distanceMeters`. -/
structure NearbyItem where
  item : ParcelListItem
  distanceMeters : ℚ
deriving DecidableEq

/-- The near-point row mapping (`getParcelsNearPoint` lines 415-427),
with the geography distance abstracted as `dist`. -/
def rowToNearbyItem (dist : ParcelRow → ℚ) (r : ParcelRow) : NearbyItem :=
  { item := rowToItem r, distanceMeters := dist r }

/-- The store query of `getParcelsNearPoint` as a relation:
`ST_DWithin` keeps rows with `dist ≤ radiusMeters`, `ORDER BY
distance_meters` sorts non-decreasingly by distance (ties unordered),
`LIMIT` takes the first `lim` rows of some such ordering. -/
def IsNearPointRows (dist : ParcelRow → ℚ) (table : List ParcelRow)
    (radiusMeters : ℚ) (lim : Nat) (rows : List ParcelRow) : Prop :=
  ∃ sorted : List ParcelRow,
    sorted.Perm (table.filter (fun r => decide (dist r ≤ radiusMeters)))
    ∧ sorted.Pairwise (fun a b => dist a ≤ dist b)
    ∧ rows = sorted.take lim

/-- `GET /api/parcels/nearby`: the only validation is
`if (!lat || !lng) throw ApiError.badRequest`; `radius` defaults to 1000
and `limit` to 20; the store call follows unconditionally. -/
def IsNearbyResponse (dist : ParcelRow → ℚ) (table : List ParcelRow)
    (lat lng : Option ℚ) (radius : Option ℚ) (lim : Option Nat)
    (resp : Except ApiError (List NearbyItem)) : Prop :=
  match lat, lng with
  | some _, some _ =>
      ∃ rows, IsNearPointRows dist table (radius.getD 1000) (lim.getD 20) rows
        ∧ resp = Except.ok (rows.map (rowToNearbyItem dist))
  | _, _ => resp = Except.error ApiError.badRequest

/-- A constant geography-distance oracle (every parcel 3 m away). -/
def distConst : ParcelRow → ℚ := fun _ => 3

/-- C3 counterexample: a nearby query with `radiusMeters = -5` (and
`lat`/`lng` present) is not rejected: the route reaches the store and
answers `ok` (here with the empty row set), and no error outcome is
possible — there is no `InvalidRadius` validation. -/
theorem C3_counterexample_negative_radius_reaches_store :
    IsNearbyResponse distConst [sampleRow] (some 1) (some 2) (some (-5)) (some 20)
        (Except.ok [])
    ∧ ¬ IsNearbyResponse distConst [sampleRow] (some 1) (some 2) (some (-5)) (some 20)
        (Except.error ApiError.badRequest) := by
  constructor
  · exact ⟨[], ⟨[], by decide, by decide, by decide⟩, rfl⟩
  · rintro ⟨rows, -, hco⟩
    exact Except.noConfusion hco

/-- C3 amended: the `/nearby` route validates only the presence of
`lat` and `lng`; the radius is never validated, so a non-positive radius
reaches the store, where — distances being non-negative — a negative
radius matches no rows and the query returns the empty set instead of an
`InvalidRadius` error. -/
theorem C3_amended_negative_radius_empty (dist : ParcelRow → ℚ)
    (table : List ParcelRow) (radius : ℚ) (lim : Nat) (rows : List ParcelRow)
    (hd : ∀ r, 0 ≤ dist r) (hneg : radius < 0)
    (h : IsNearPointRows dist table radius lim rows) :
    rows = [] := by
  obtain ⟨sorted, hperm, hsort, hrows⟩ := h
  have hfil : table.filter (fun r => decide (dist r ≤ radius)) = [] := by
    rw [List.filter_eq_nil_iff]
    intro r hr
    simp only [decide_eq_true_eq]
    intro hle
    have := (hd r).trans hle
    linarith
  have hs : sorted = [] := (hfil ▸ hperm).eq_nil
  simp [hrows, hs]

/-- Witness for the amended C3 at a concrete one-row table, distance 3,
radius −5. -/
theorem C3_amended_negative_radius_empty_witness :
    ([] : List ParcelRow) = [] :=
  C3_amended_negative_radius_empty distConst [sampleRow] (-5) 20 []
    (fun _ => by norm_num [distConst]) (by norm_num)
    ⟨[], by decide, by decide, by decide⟩

/-! ## Statistics aggregator (`getParcelStats`) -/

/-- The stats row shape returned by `getParcelStats` (first aggregate
query; the zoning breakdown query is separate and unclaimed). -/
structure ParcelStats where
  totalParcels : Nat
  totalAreaAcres : ℚ
  averagePrice : ℚ
  minPrice : ℚ
  maxPrice : ℚ
  averageAreaAcres : ℚ
deriving DecidableEq

/-- SQL `SUM`: `NULL` on the empty input. -/
def sqlSum (l : List ℚ) : Option ℚ :=
  if l = [] then none else some l.sum

/-- SQL `AVG` over the non-`NULL` inputs: `NULL` when there are none. -/
def sqlAvg (l : List ℚ) : Option ℚ :=
  if l = [] then none else some (l.sum / l.length)

/-- The latest estimated prices contributing to the price aggregates:
`AVG`/`MIN`/`MAX` skip `NULL`, so exactly the parcels with a valuation
contribute. -/
def priceContributors (table : List ParcelRow) : List ℚ :=
  table.filterMap ParcelRow.estimatedPrice

/-- `getParcelStats`: `COUNT(DISTINCT p.id)` over the primary key is the
row count; the aggregates are `NULL`-skipping and every `NULL` aggregate
is coerced by `|| 0` in the response mapping. -/
def getParcelStats (table : List ParcelRow) : ParcelStats :=
  { totalParcels := table.length
    totalAreaAcres := jsNumOrZero (sqlSum (table.map ParcelRow.areaAcres))
    averagePrice := jsNumOrZero (sqlAvg (priceContributors table))
    minPrice := jsNumOrZero (priceContributors table).min?
    maxPrice := jsNumOrZero (priceContributors table).max?
    averageAreaAcres := jsNumOrZero (sqlAvg (table.map ParcelRow.areaAcres)) }

/-- C9: on the empty parcel set, Stats reports `totalParcels = 0` and the
neutral value `0` for average, minimum and maximum price (the `NULL`
aggregates coerced by `|| 0`; the average is guarded, never a division
by zero); and on every table the number of parcels contributing to the
price aggregates is at most `totalParcels`, since valuation-less parcels
count toward the total but not toward the price statistics. -/
theorem C9_stats_empty_neutral_and_contributors :
    (getParcelStats []).totalParcels = 0
    ∧ (getParcelStats []).averagePrice = 0
    ∧ (getParcelStats []).minPrice = 0
    ∧ (getParcelStats []).maxPrice = 0
    ∧ ∀ table : List ParcelRow,
        (priceContributors table).length ≤ (getParcelStats table).totalParcels := by
  refine ⟨rfl, rfl, rfl, rfl, ?_⟩
  intro table
  simpa [getParcelStats, priceContributors] using
    List.length_filterMap_le ParcelRow.estimatedPrice table

end LandScore
